import Mathlib

/-!
Verification development for the IT-operations chat bot's dialogue engine.

The Python sources embedded here:
  * `app/services/dialogue_service.py` — the dialogue engine `get_next_action`
    and its per-slot handlers, plus the fallback ticket-id extraction regex
    used by `handle_message`;
  * `app/services/slack_service.py` — the decision portion of
    `process_and_respond` / `process_message` (the turn orchestrator), which
    short-circuits the `confirmation` / `employee_id` slots and performs the
    post-engine `execute_software_request` call into the software client.

Texts are modelled as `List Char`.  Python `dict` keys that may be absent are
`Option` fields.  External collaborators (ServiceNow, NLU, knowledge base,
software-request client) are oracles in an `Env` record whose answers the
engine consumes; exceptions raised by a collaborator are `Except.error` values,
and the calls the code issues are recorded in the `calls` field of the result.
Scope notes: Python's `str.lower` is modelled on ASCII (the tokens the code
lowercases are ASCII or CJK, which `lower` leaves unchanged); the regex classes
`\w` / `\d` are modelled on the ASCII plus CJK-ideograph alphabet the bot
handles (Python's `\w` does contain the CJK ideographs, so the boundary
behaviour on such text is preserved).
-/

/-- Turn texts, modelled as lists of characters. -/
abbrev Txt := List Char

/-- Coerce a string literal into the `Txt` representation. -/
def txt (s : String) : Txt := s.toList

/-- Python `str.lower` restricted to ASCII letters (the only cased characters
the dialogue code lowercases). -/
def lowerChar (c : Char) : Char :=
  if 'A' ≤ c ∧ c ≤ 'Z' then Char.ofNat (c.toNat + 32) else c

/-- Lowercase a whole text, as Python's `text.lower()`. -/
def lowerTxt (t : Txt) : Txt := t.map lowerChar

/-- `tokStarts tok l`: does `l` start with `tok`?  (Building block of Python's
substring test `tok in text`.) -/
def tokStarts : Txt → Txt → Bool
  | [], _ => true
  | _ :: _, [] => false
  | a :: as, b :: bs => a == b && tokStarts as bs

/-- Python's substring containment `tok in hay`. -/
def containsTok (tok : Txt) : Txt → Bool
  | [] => tokStarts tok []
  | c :: rest => tokStarts tok (c :: rest) || containsTok tok rest

/-- `dialogue_service.contains_chinese` (lines 28–33): text contains a code
point in the CJK Unified Ideographs block U+4E00–U+9FFF. -/
def contains_chinese (t : Txt) : Bool :=
  t.any fun c => (0x4e00 ≤ c.toNat) && (c.toNat ≤ 0x9fff)

/-- Word characters for the regex `\b` boundary: ASCII alphanumerics and
underscore, plus the CJK ideographs (Python's unicode `\w` includes them). -/
def isWordChar (c : Char) : Bool :=
  c.isAlphanum || c == '_' || ((0x4e00 ≤ c.toNat) && (c.toNat ≤ 0x9fff))

/-- ASCII whitespace, for Python's `str.strip()`. -/
def isSpaceChar (c : Char) : Bool :=
  c == ' ' || c == '\t' || c == '\n' || c == '\r'

/-- Python `str.strip()` (whitespace from both ends). -/
def stripTxt (t : Txt) : Txt :=
  ((t.dropWhile isSpaceChar).reverse.dropWhile isSpaceChar).reverse

/-- Case-insensitive literal match at the head of the input: `matchLeadCI pat l`
succeeds when the first `pat.length` characters of `l` lowercase to `pat`,
returning those characters (in their original case) and the remainder. -/
def matchLeadCI : Txt → Txt → Option (Txt × Txt)
  | [], l => some ([], l)
  | _ :: _, [] => none
  | p :: ps, c :: cs =>
    if lowerChar c == p then
      match matchLeadCI ps cs with
      | some (m, r) => some (c :: m, r)
      | none => none
    else none

/-! ### The Entity Fallback Extractor

`dialogue_service.handle_message` lines 572–576 compile
`\b(?:INC|REQ|TASK|RITM)\d{5,}\b` with `re.IGNORECASE` and collect every match
of `finditer` in order.  The alternatives are pairwise exclusive at any given
position, `\d{5,}` is greedy over a maximal digit run, and the trailing `\b`
holds exactly when the character after the digit run is absent or non-word
(backtracking inside the digit run cannot help, since any shorter run is
followed by a digit). -/

/-- Try one ticket-id alternative at the start of `l`: the lowercase pattern
`pat` followed by at least five digits and a trailing word boundary.  Returns
the matched text (original case) and the rest of the input. -/
def matchTicketAlt (pat : Txt) (l : Txt) : Option (Txt × Txt) :=
  match matchLeadCI pat l with
  | none => none
  | some (m, rest) =>
    let ds := rest.takeWhile Char.isDigit
    let rest2 := rest.dropWhile Char.isDigit
    if 5 ≤ ds.length && (match rest2 with
                         | [] => true
                         | c :: _ => !isWordChar c) then
      some (m ++ ds, rest2)
    else none

/-- Try the alternation `INC|REQ|TASK|RITM` (in the pattern's order) at the
start of `l`. -/
def matchTicketAt (l : Txt) : Option (Txt × Txt) :=
  match matchTicketAlt (txt "inc") l with
  | some r => some r
  | none =>
    match matchTicketAlt (txt "req") l with
    | some r => some r
    | none =>
      match matchTicketAlt (txt "task") l with
      | some r => some r
      | none => matchTicketAlt (txt "ritm") l

/-- The leading `\b`: the first pattern character is a word character, so the
boundary holds exactly when the previous character is absent or non-word. -/
def boundaryBefore : Option Char → Bool
  | none => true
  | some c => !isWordChar c

/-- The `finditer` scan: walk left to right, at each boundary position try the
pattern, and continue after the end of a match.  `fuel` only makes the
recursion structural; it starts at the input length and every step consumes at
least one input character, so it never runs out before the input does. -/
def scanTicketsAux : Nat → Option Char → Txt → List Txt
  | 0, _, _ => []
  | _ + 1, _, [] => []
  | fuel + 1, prev, c :: rest =>
    if boundaryBefore prev then
      match matchTicketAt (c :: rest) with
      | some (m, r) => m :: scanTicketsAux fuel m.getLast? r
      | none => scanTicketsAux fuel (some c) rest
    else scanTicketsAux fuel (some c) rest

/-- The spec's `ExtractTicketIds`: all matches of
`\b(?:INC|REQ|TASK|RITM)\d{5,}\b` (case-insensitive), in first-seen order
(`dialogue_service.handle_message` lines 572–576). -/
def extract_ticket_ids (t : Txt) : List Txt :=
  scanTicketsAux t.length none t

/-! ### The `INC\d+` recovery regex

`dialogue_service.handle_ticket_number_input` lines 198–203 instead run
`re.search(r'(INC\d+)', text, re.IGNORECASE)`: no word boundaries, any prefix
`INC` (case-insensitive) followed by one or more digits, leftmost match,
greedy digit run. -/

/-- Match `INC\d+` (case-insensitive) at the start of `l`. -/
def matchINCAt (l : Txt) : Option Txt :=
  match matchLeadCI (txt "inc") l with
  | none => none
  | some (m, rest) =>
    match rest.takeWhile Char.isDigit with
    | [] => none
    | ds => some (m ++ ds)

/-- `re.search(r'(INC\d+)', text, re.IGNORECASE)`: the leftmost match, or
`none`. -/
def searchINC : Txt → Option Txt
  | [] => none
  | c :: rest =>
    match matchINCAt (c :: rest) with
    | some m => some m
    | none => searchINC rest

/-! ### Data model

`IntentData`, `ConversationState` and `ActionResult` are Python dicts; fields
that the code reads with key-presence checks or `.get` defaults are `Option`s.
`ConvState.intent` mirrors the `"intent"` key the Slack orchestrator stores in
its own states (never read by the engine). -/

/-- The entity map (`intent_data["entities"]`): the three entity groups the
dialogue code reads. -/
structure Entities where
  ticketNumber : Option (List Txt) := none
  softwareName : Option (List Txt) := none
  loc : Option (List Txt) := none
deriving Repr, DecidableEq

/-- The interpreted turn handed to the engine. -/
structure IntentData where
  intent : Txt
  text : Option Txt := none
  entities : Option Entities := none
  selected_option : Option Txt := none
deriving Repr, DecidableEq

/-- A persisted conversation-state record. -/
structure ConvState where
  waiting_for : Option Txt := none
  action_type : Option Txt := none
  short_description : Option Txt := none
  urgency : Option Txt := none
  location : Option Txt := none
  software_name : Option Txt := none
  intent : Option Txt := none
deriving Repr, DecidableEq

/-- An external-collaborator call issued while computing a turn. -/
inductive ExtCall where
  | getStatus (ticketId : Txt)
  | createTicket (shortDescription description urgency : Txt)
  | kbAnswer (query : Txt)
  | submit (userId softwareName : Txt)
deriving Repr, DecidableEq

/-- The engine's result dict.  `action`, `response_type`, `blocks_type` and
`details_software_name` model the identically named dict entries (absent keys
are `none`); `calls` records the collaborator calls made on the way. -/
structure ActionResult where
  action : Option Txt := none
  response : Txt
  response_type : Option Txt := none
  blocks_type : Option Txt := none
  details_software_name : Option Txt := none
  next_state : Option ConvState
  calls : List ExtCall := []
deriving Repr, DecidableEq

/-- `servicenow.get_ticket_status` result: `err` models the `"error"` key's
presence; the remaining fields are read with `"Unknown"`-style defaults. -/
structure TicketStatusRes where
  err : Bool
  state : Option Txt := none
  short_description : Option Txt := none
  priority : Option Txt := none
  updated_at : Option Txt := none
deriving Repr, DecidableEq

/-- `create_servicenow_ticket` result. -/
structure CreateRes where
  err : Bool
  details : Option Txt := none
  ticket_number : Option Txt := none
deriving Repr, DecidableEq

/-- `software_service.submit_software_request` result (cf. lines 17–86: a
`status` of `"success"` or `"error"`, an optional ticket number and message,
and the `simulated` marker of the fallback path). -/
structure SubmitRes where
  status : Txt
  message : Option Txt := none
  ticket_number : Option Txt := none
  software_name : Txt := []
  simulated : Bool := false
deriving Repr, DecidableEq

/-- The external collaborators, as deterministic oracles; an `Except.error`
answer models an exception raised by the collaborator. -/
structure Env where
  getTicketStatus : Txt → Except Unit TicketStatusRes
  createTicket : Txt → Txt → Txt → Except Unit CreateRes
  kbAnswer : Txt → Except Unit Txt
  understand : Txt → IntentData
  submit : Txt → Txt → SubmitRes

/-! ### The dialogue engine (`dialogue_service.get_next_action` and its
handlers) -/

/-- The affirmative-token list of `handle_confirmation_input` line 297 and
`handle_software_confirmation_input` line 494. -/
def affirmTokens : List Txt :=
  [txt "yes", txt "yeah", txt "sure", txt "ok", txt "okay", txt "yep",
   txt "confirm", txt "是", txt "确认"]

/-- `any(word in text for word in [...])` applied to the lowercased turn
text. -/
def isAffirmative (t : Txt) : Bool :=
  affirmTokens.any fun w => containsTok w (lowerTxt t)

/-- The English generic-error reply of `get_next_action` lines 180–186. -/
def enErrMsg : Txt := txt "Sorry, there was an error processing your request."

/-- The Chinese generic-error reply of `get_next_action` lines 180–186. -/
def zhErrMsg : Txt := txt "抱歉，处理您的请求时出现错误。"

/-- The English knowledge-base failure reply of `get_next_action` lines 77–81. -/
def enKbErrMsg : Txt := txt "Sorry, there was an error searching the knowledge base. Please try again later."

/-- The Chinese knowledge-base failure reply of `get_next_action` lines 77–81. -/
def zhKbErrMsg : Txt := txt "抱歉，搜索知识库时出现错误。请稍后再试。"

/-- The localized reply of `get_next_action`'s top-level `except` handler
(lines 180–186); the dict it returns has no `"action"` key. -/
def errorResult (use_chinese : Bool) : ActionResult :=
  { response := if use_chinese then zhErrMsg else enErrMsg,
    next_state := none }

/-- The re-prompt of `handle_ticket_number_input` lines 205–210. -/
def ask_again_ticket_result (st : ConvState) : ActionResult :=
  { action := some (txt "ask_again"),
    response := txt "I didn\x27t recognize a valid ticket number. Please provide a ticket number in the format INC12345.",
    next_state := some st }

/-- The status rendering of `handle_ticket_number_input` line 229 (with the
`Last Updated` field). -/
def renderTicketStatusFull (tn : Txt) (res : TicketStatusRes) : Txt :=
  txt "Ticket " ++ tn ++ txt ":\nStatus: " ++ res.state.getD (txt "Unknown") ++
  txt "\nPriority: " ++ res.priority.getD (txt "Unknown") ++
  txt "\nDescription: " ++ res.short_description.getD (txt "No description available") ++
  txt "\nLast Updated: " ++ res.updated_at.getD (txt "Unknown")

/-- The ticket lookup of `handle_ticket_number_input` lines 212–243: call the
ticketing client, render found / not-found / failure. -/
def ticketLookupFull (env : Env) (tn : Txt) : ActionResult :=
  match env.getTicketStatus tn with
  | .error _ =>
    { action := some (txt "error"),
      response := txt "I\x27m sorry, I encountered an error while checking the ticket status. Please try again later.",
      next_state := none, calls := [.getStatus tn] }
  | .ok res =>
    if res.err then
      { action := some (txt "report_error"),
        response := txt "I couldn\x27t find ticket " ++ tn ++ txt ". Please check the ticket number and try again.",
        next_state := none, calls := [.getStatus tn] }
    else
      { action := some (txt "report_status"),
        response := renderTicketStatusFull tn res,
        next_state := none, calls := [.getStatus tn] }

/-- After ticket-number resolution: Python's `if not ticket_number` treats an
empty string like a missing one. -/
def ticketNumberResolved (env : Env) (tn : Txt) (st : ConvState) : ActionResult :=
  if tn.isEmpty then ask_again_ticket_result st else ticketLookupFull env tn

/-- `handle_ticket_number_input` (lines 188–243).  The entity group wins when
its key is present; `[0]` on a present-but-empty list raises `IndexError`
(modelled as `Except.error`), otherwise the `INC\d+` regex over the raw text
is the fallback. -/
def handle_ticket_number_input (env : Env) (intent_data : IntentData)
    (current_state : ConvState) : Except Unit ActionResult :=
  match intent_data.entities.bind (fun es => es.ticketNumber) with
  | some [] => Except.error ()
  | some (tn :: _) => Except.ok (ticketNumberResolved env tn current_state)
  | none =>
    match intent_data.text.bind searchINC with
    | some tn => Except.ok (ticketNumberResolved env tn current_state)
    | none => Except.ok (ask_again_ticket_result current_state)

/-- `handle_ticket_details_input` (lines 245–290).  `not description or
len(description) < 5` is equivalent to `len(description) < 5`. -/
def handle_ticket_details_input (env : Env) (intent_data : IntentData)
    (current_state : ConvState) : ActionResult :=
  let description := intent_data.text.getD []
  if description.length < 5 then
    { action := some (txt "ask_again"),
      response := txt "Please provide more details about the issue you\x27re experiencing.",
      next_state := some current_state }
  else
    let urgency := current_state.urgency.getD (txt "3")
    let sd := current_state.short_description.getD (txt "IT Support Request")
    match env.createTicket sd description urgency with
    | .error _ =>
      { action := some (txt "error"),
        response := txt "I\x27m sorry, I encountered an error while creating your ticket. Please try again later.",
        next_state := none, calls := [.createTicket sd description urgency] }
    | .ok res =>
      if res.err then
        { action := some (txt "report_error"),
          response := txt "I\x27m sorry, I couldn\x27t create your ticket. Error: " ++ res.details.getD (txt "Unknown error"),
          next_state := none, calls := [.createTicket sd description urgency] }
      else
        { action := some (txt "ticket_created"),
          response := txt "Success! I\x27ve created ticket " ++ res.ticket_number.getD (txt "Unknown") ++
            txt " for you. The IT team will review it shortly.",
          next_state := none, calls := [.createTicket sd description urgency] }

/-- The cancellation reply of `handle_confirmation_input` lines 330–336. -/
def cancelMsg : Txt := txt "I\x27ve cancelled the request. Is there anything else I can help with?"

/-- `handle_confirmation_input` (lines 292–336). -/
def handle_confirmation_input (intent_data : IntentData)
    (current_state : ConvState) : ActionResult :=
  if isAffirmative (intent_data.text.getD []) then
    if current_state.action_type = some (txt "password_reset") then
      { action := some (txt "password_reset_confirmed"),
        response := txt "I\x27ll start the password reset process. Please provide your employee ID or username.",
        next_state := some { waiting_for := some (txt "employee_id"),
                             action_type := some (txt "password_reset") } }
    else if current_state.action_type = some (txt "create_ticket") then
      { action := some (txt "select_ticket_urgency"),
        response := txt "Please select the urgency for this ticket:",
        response_type := some (txt "blocks"), blocks_type := some (txt "select_urgency"),
        next_state := some { waiting_for := some (txt "urgency_selection"),
                             action_type := some (txt "create_ticket"),
                             short_description := some (current_state.short_description.getD (txt "IT Support Request")) } }
    else
      { action := some (txt "confirmed"),
        response := txt "Confirmed. How else can I help you?",
        next_state := none }
  else
    { action := some (txt "cancelled"), response := cancelMsg, next_state := none }

/-- `handle_urgency_selection` (lines 338–358); a falsy `selected_option`
defaults to `"3"`. -/
def handle_urgency_selection (intent_data : IntentData)
    (current_state : ConvState) : ActionResult :=
  let s := intent_data.selected_option.getD []
  let sel := if s.isEmpty then txt "3" else s
  { action := some (txt "create_ticket_urgency_selected"),
    response := txt "Thank you. Now please describe the issue you\x27re experiencing in detail.",
    next_state := some { waiting_for := some (txt "ticket_details"),
                         action_type := some (txt "create_ticket"),
                         short_description := some (current_state.short_description.getD (txt "IT Support Request")),
                         urgency := some sel } }

/-- The status rendering of `handle_check_ticket_status` line 382 (no
`Last Updated` field, unlike the ticket-number-slot handler). -/
def renderTicketStatusShort (tn : Txt) (res : TicketStatusRes) : Txt :=
  txt "Ticket " ++ tn ++ txt ":\nStatus: " ++ res.state.getD (txt "Unknown") ++
  txt "\nPriority: " ++ res.priority.getD (txt "Unknown") ++
  txt "\nDescription: " ++ res.short_description.getD (txt "No description available")

/-- `handle_check_ticket_status` (lines 360–402): the entity check `if
"TICKET_NUMBER" in entities and entities["TICKET_NUMBER"]` rules out both an
absent key and an empty (falsy) list. -/
def handle_check_ticket_status (env : Env) (entities : Entities) : ActionResult :=
  match entities.ticketNumber with
  | some (tn :: _) =>
    match env.getTicketStatus tn with
    | .error _ =>
      { action := some (txt "error"),
        response := txt "I\x27m sorry, I encountered an error while checking the ticket status. Please try again later.",
        next_state := none, calls := [.getStatus tn] }
    | .ok res =>
      if res.err then
        { action := some (txt "report_error"),
          response := txt "I couldn\x27t find ticket " ++ tn ++ txt ". Please check the ticket number and try again.",
          next_state := none, calls := [.getStatus tn] }
      else
        { action := some (txt "report_status"),
          response := renderTicketStatusShort tn res,
          next_state := none, calls := [.getStatus tn] }
  | _ =>
    { action := some (txt "ask_ticket_number"),
      response := txt "I can check the status of your ticket. Could you please provide the ticket number (e.g., INC12345)?",
      next_state := some { waiting_for := some (txt "ticket_number"),
                           action_type := some (txt "check_ticket") } }

/-- `handle_reset_password` (lines 404–415). -/
def handle_reset_password : ActionResult :=
  { action := some (txt "confirm_reset"),
    response := txt "I can help you reset your password. This will generate a temporary password. Would you like to proceed?",
    response_type := some (txt "blocks"), blocks_type := some (txt "confirm_password_reset"),
    next_state := some { waiting_for := some (txt "confirmation"),
                         action_type := some (txt "password_reset") } }

/-- `handle_create_ticket` (lines 417–457): keyword-derived issue type,
optional `LOC` entity appended. -/
def handle_create_ticket (intent_data : IntentData) (entities : Entities) : ActionResult :=
  let location : Txt :=
    match entities.loc with
    | some (l :: _) => l
    | _ => []
  let lt := lowerTxt (intent_data.text.getD [])
  let issue_type :=
    if containsTok (txt "network") lt then txt "Network issue"
    else if containsTok (txt "password") lt then txt "Password issue"
    else if containsTok (txt "software") lt || containsTok (txt "program") lt ||
            containsTok (txt "application") lt then txt "Software issue"
    else if containsTok (txt "hardware") lt || containsTok (txt "computer") lt ||
            containsTok (txt "laptop") lt then txt "Hardware issue"
    else txt "IT support request"
  let short_description :=
    if location.isEmpty then issue_type else issue_type ++ txt " at " ++ location
  { action := some (txt "confirm_create_ticket"),
    response := txt "I\x27ll help you create a ticket for: \x27" ++ short_description ++
      txt "\x27. Would you like to proceed?",
    next_state := some { waiting_for := some (txt "confirmation"),
                         action_type := some (txt "create_ticket"),
                         short_description := some short_description,
                         urgency := some (txt "3"),
                         location := some location } }

/-- The confirmation result of `handle_software_name_input` lines 477–486. -/
def confirm_software_result (s : Txt) : ActionResult :=
  { action := some (txt "confirm_software_request"),
    response := txt "Got it. You want to request " ++ s ++ txt ". Is that correct? (Yes/No)",
    next_state := some { waiting_for := some (txt "software_confirmation"),
                         action_type := some (txt "request_software"),
                         software_name := some s } }

/-- `handle_software_name_input` (lines 459–486): length check on the stripped
raw text first, then the NER override; `[0]` on a present-but-empty
`SOFTWARE_NAME` list raises `IndexError`. -/
def handle_software_name_input (intent_data : IntentData)
    (current_state : ConvState) : Except Unit ActionResult :=
  let software_name := stripTxt (intent_data.text.getD [])
  if software_name.length < 2 then
    Except.ok
      { action := some (txt "ask_again"),
        response := txt "I couldn\x27t understand which software you need. Please specify the name of the software you\x27d like to request.",
        next_state := some current_state }
  else
    match intent_data.entities.bind (fun es => es.softwareName) with
    | some [] => Except.error ()
    | some (s :: _) => Except.ok (confirm_software_result s)
    | none => Except.ok (confirm_software_result software_name)

/-- `handle_software_confirmation_input` (lines 488–518).  The affirmative
branch only simulates success — it builds the reply directly and calls no
client (its `try` cannot raise). -/
def handle_software_confirmation_input (intent_data : IntentData)
    (current_state : ConvState) : ActionResult :=
  let software_name := current_state.software_name.getD (txt "the requested software")
  if isAffirmative (intent_data.text.getD []) then
    { action := some (txt "execute_software_request"),
      details_software_name := some software_name,
      response := txt "Great! I\x27ve submitted a request for " ++ software_name ++
        txt ". The IT team will review your request and contact you shortly. Your request has been tracked.",
      next_state := none }
  else
    { action := some (txt "ask_software_name"),
      response := txt "I see. Please provide the correct name of the software you\x27d like to request.",
      next_state := some { waiting_for := some (txt "software_name"),
                           action_type := some (txt "request_software") } }

/-- `handle_request_software` (lines 520–542). -/
def handle_request_software (entities : Entities) : ActionResult :=
  match entities.softwareName with
  | some (s :: _) =>
    { action := some (txt "confirm_software_request"),
      response := txt "I see you want to request " ++ s ++ txt ". Is that correct? (Yes/No)",
      next_state := some { waiting_for := some (txt "software_confirmation"),
                           action_type := some (txt "request_software"),
                           software_name := some s } }
  | _ =>
    { action := some (txt "ask_software_name"),
      response := txt "I can help you request software. Which software would you like to request?",
      next_state := some { waiting_for := some (txt "software_name"),
                           action_type := some (txt "request_software") } }

/-- The intent dispatch of `get_next_action` lines 108–178, reached when no
`waiting_for` slot matched. -/
def intent_dispatch (env : Env) (intent_data : IntentData) (use_chinese : Bool) : ActionResult :=
  let entities := intent_data.entities.getD {}
  if intent_data.intent = txt "check_ticket_status" then
    handle_check_ticket_status env entities
  else if intent_data.intent = txt "reset_password" then
    handle_reset_password
  else if intent_data.intent = txt "create_ticket" then
    handle_create_ticket intent_data entities
  else if intent_data.intent = txt "request_software" then
    handle_request_software entities
  else if intent_data.intent = txt "greeting" then
    { action := some (txt "greeting"),
      response :=
        if use_chinese then txt "您好！我是IT支持助手。今天有什么可以帮您的吗？"
        else txt "Hello! I\x27m your IT support assistant. How can I help you today?",
      next_state := none }
  else if intent_data.intent = txt "general_question" then
    { action := some (txt "respond_general"),
      response :=
        if use_chinese then txt "我可以帮助解决IT相关问题。我可以查询工单状态、帮助重置密码、查找知识库文章、创建新的支持工单或请求软件。您需要什么帮助？"
        else txt "I can help with IT-related questions. I can check ticket status, help reset passwords, find knowledge base articles, create new support tickets, or request software. What would you like assistance with?",
      next_state := none }
  else if intent_data.intent = txt "find_kb_article" then
    { action := some (txt "ask_kb_query"),
      response :=
        if use_chinese then txt "请问您想查询什么IT相关问题？"
        else txt "What IT-related question would you like me to answer?",
      next_state := some { waiting_for := some (txt "kb_query") } }
  else
    { action := some (txt "clarify"),
      response :=
        if use_chinese then txt "抱歉，我不太理解您的意思。我可以帮助查询工单状态、重置密码、查找知识库文章、创建支持工单或请求软件。您能重新描述您的请求吗？"
        else txt "I\x27m not sure I understand. I can help with checking ticket status, resetting passwords, finding knowledge base articles, creating support tickets, or requesting software. Could you please rephrase your request?",
      next_state := none }

/-- `get_next_action` (lines 42–186), the spec's `NextAction`.  A `none` state
passes the guarded `kb_query` check (line 63, `if current_state and ...`) but
then crashes at line 84 (`current_state.get("waiting_for")` on `None` raises
`AttributeError`), which the `except` at lines 180–186 converts into
`errorResult`.  The two handlers that can raise `IndexError` on empty entity
lists are wrapped the same way. -/
def get_next_action (env : Env) (intent_data : IntentData)
    (current_state : Option ConvState) : ActionResult :=
  let text := intent_data.text.getD []
  let use_chinese := contains_chinese text
  match current_state with
  | none => errorResult use_chinese
  | some st =>
    if st.waiting_for = some (txt "kb_query") then
      match env.kbAnswer text with
      | .ok answer =>
        { action := some (txt "provide_kb_answer"), response := answer,
          next_state := none, calls := [.kbAnswer text] }
      | .error _ =>
        { response := if use_chinese then zhKbErrMsg else enKbErrMsg,
          next_state := none, calls := [.kbAnswer text] }
    else if st.waiting_for = some (txt "ticket_number") then
      match handle_ticket_number_input env intent_data st with
      | .ok r => r
      | .error _ => errorResult use_chinese
    else if st.waiting_for = some (txt "ticket_details") then
      handle_ticket_details_input env intent_data st
    else if st.waiting_for = some (txt "confirmation") then
      handle_confirmation_input intent_data st
    else if st.waiting_for = some (txt "urgency_selection") then
      handle_urgency_selection intent_data st
    else if st.waiting_for = some (txt "software_name") then
      match handle_software_name_input intent_data st with
      | .ok r => r
      | .error _ => errorResult use_chinese
    else if st.waiting_for = some (txt "software_confirmation") then
      handle_software_confirmation_input intent_data st
    else
      intent_dispatch env intent_data use_chinese

/-! ### The Slack turn orchestrator
(`slack_service.process_message` lines 774–792 and the decision portion of
`process_and_respond` lines 66–130). -/

/-- The fixed employee-id acknowledgement of `process_and_respond`
lines 85–90. -/
def requestReceivedMsg : Txt :=
  txt "已收到您的员工ID。我们将在24小时内处理您的密码重置请求，并通过邮件通知您。\n如果您有紧急需求，请联系IT服务台: 400-888-8888"

/-- `slack_service.process_message`: while waiting for a ticket number and the
raw text contains `INC` (case-sensitive), the intent dict is built without
`"text"`/`"entities"` keys; otherwise the NLU result, with its `"text"` set to
the raw message, is handed to the engine. -/
def process_message (env : Env) (message_text : Txt)
    (current_state : Option ConvState) : ActionResult :=
  let viaTicket :=
    match current_state with
    | some st => decide (st.waiting_for = some (txt "ticket_number")) &&
                 containsTok (txt "INC") message_text
    | none => false
  if viaTicket then
    get_next_action env { intent := txt "check_ticket" } current_state
  else
    let d0 := env.understand message_text
    get_next_action env { d0 with text := some message_text } current_state

/-- The pre-engine decision ladder of `slack_service.process_and_respond`
(lines 66–103): the orchestrator's own `confirmation` / `employee_id`
short-circuits, the `password`&`reset` keyword override, then the engine call
through `process_message`.  (The `understand_intent` call at line 93 whose
result the password override discards is an untracked pure oracle call and is
elided; the stored state enters as `get_state(...) or {}`.) -/
def respond_base (env : Env) (message_text : Txt)
    (current_state : ConvState) : ActionResult :=
  if current_state.waiting_for = some (txt "confirmation") then
      if [txt "yes", txt "y", txt "是", txt "确认"].contains (lowerTxt message_text) then
        { response := txt "好的，我将为您重置密码。请提供您的员工ID或用户名。",
          next_state := some { intent := some (txt "password_reset"),
                               waiting_for := some (txt "employee_id") } }
      else
        { response := txt "已取消密码重置流程。如果您之后需要帮助，随时可以询问我。",
          next_state := none }
    else if current_state.waiting_for = some (txt "employee_id") then
      { response := requestReceivedMsg, next_state := none }
    else if containsTok (txt "password") (lowerTxt message_text) &&
            containsTok (txt "reset") (lowerTxt message_text) then
      { response := txt "我可以帮助您重置密码。这个操作会将您的密码重置为一个临时密码。您确定要继续吗？",
        next_state := some { intent := some (txt "password_reset"),
                             waiting_for := some (txt "confirmation") } }
    else
      process_message env message_text (some current_state)

/-- The post-engine step of `process_and_respond` (lines 105–130): when the
engine asked for `execute_software_request`, call the software client and
rewrite the reply from its outcome. -/
def process_and_respond_core (env : Env) (user_id : Txt) (message_text : Txt)
    (stored : Option ConvState) : ActionResult :=
  let base := respond_base env message_text (stored.getD {})
  if base.action = some (txt "execute_software_request") then
    let software_name := base.details_software_name.getD (txt "Unknown software")
    let r := env.submit user_id software_name
    let newResp :=
      if r.status = txt "success" then
        let m := txt "Your request for " ++ software_name ++
          txt " has been submitted successfully. Ticket " ++
          (r.ticket_number.getD (txt "Unknown") ++
           txt " has been created to track your request.")
        if r.simulated then m ++ txt " (Note: This is a simulated response)" else m
      else
        txt "I\x27m sorry, there was an issue processing your software request: " ++
          r.message.getD (txt "Unknown error")
    { base with response := newResp, next_state := none,
                calls := base.calls ++ [ExtCall.submit user_id software_name] }
  else base

/-! ## Shared facts and a concrete environment for closed evaluations -/

/-- A concrete environment whose collaborators all fail (raise), and whose NLU
labels every turn `unknown`; used to evaluate the pure decision logic at
concrete inputs. -/
def env0 : Env :=
  { getTicketStatus := fun _ => .error (),
    createTicket := fun _ _ _ => .error (),
    kbAnswer := fun _ => .error (),
    understand := fun t => { intent := txt "unknown", text := some t },
    submit := fun _ _ => { status := txt "error" } }

/-- A concrete environment whose software client succeeds with ticket
`REQ0099999` (non-simulated) and whose other collaborators fail. -/
def envSubmitOk : Env :=
  { env0 with
    submit := fun _ sw =>
      { status := txt "success", ticket_number := some (txt "REQ0099999"),
        software_name := sw } }

theorem tokStarts_append (t b : Txt) : tokStarts t (t ++ b) = true := by
  induction t with
  | nil => rfl
  | cons a as ih => simp [tokStarts, ih]

theorem containsTok_nil_tok (hay : Txt) : containsTok [] hay = true := by
  cases hay <;> simp [containsTok, tokStarts]

/-- Substring containment holds for any explicit decomposition. -/
theorem containsTok_sandwich (t a b : Txt) : containsTok t (a ++ (t ++ b)) = true := by
  induction a with
  | nil =>
    cases t with
    | nil => simpa using containsTok_nil_tok b
    | cons x xs =>
      simp only [List.nil_append, containsTok, Bool.or_eq_true]
      exact Or.inl (tokStarts_append (x :: xs) b)
  | cons c cs ih => simp [containsTok, ih]

/-- Engine dispatch with a null state: the `AttributeError` → `except` path. -/
theorem gna_none_state (env : Env) (d : IntentData) :
    get_next_action env d none = errorResult (contains_chinese (d.text.getD [])) := rfl

/-- Engine dispatch into the `kb_query` slot handler. -/
theorem gna_at_kb_query (env : Env) (d : IntentData) (st : ConvState)
    (h : st.waiting_for = some (txt "kb_query")) :
    get_next_action env d (some st) =
      (match env.kbAnswer (d.text.getD []) with
       | .ok answer =>
         { action := some (txt "provide_kb_answer"), response := answer,
           next_state := none, calls := [.kbAnswer (d.text.getD [])] }
       | .error _ =>
         { response := if contains_chinese (d.text.getD []) then zhKbErrMsg else enKbErrMsg,
           next_state := none, calls := [.kbAnswer (d.text.getD [])] }) := by
  simp only [get_next_action, h]
  rw [if_pos trivial]

/-- Engine dispatch into the `ticket_number` slot handler (with its
`IndexError` guard). -/
theorem gna_at_ticket_number (env : Env) (d : IntentData) (st : ConvState)
    (h : st.waiting_for = some (txt "ticket_number")) :
    get_next_action env d (some st) =
      (match handle_ticket_number_input env d st with
       | .ok r => r
       | .error _ => errorResult (contains_chinese (d.text.getD []))) := by
  simp only [get_next_action, h]
  rw [if_neg (by decide), if_pos trivial]

/-- Engine dispatch into the `ticket_details` slot handler. -/
theorem gna_at_ticket_details (env : Env) (d : IntentData) (st : ConvState)
    (h : st.waiting_for = some (txt "ticket_details")) :
    get_next_action env d (some st) = handle_ticket_details_input env d st := by
  simp only [get_next_action, h]
  rw [if_neg (by decide), if_neg (by decide), if_pos trivial]

/-- Engine dispatch into the `confirmation` slot handler. -/
theorem gna_at_confirmation (env : Env) (d : IntentData) (st : ConvState)
    (h : st.waiting_for = some (txt "confirmation")) :
    get_next_action env d (some st) = handle_confirmation_input d st := by
  simp only [get_next_action, h]
  rw [if_neg (by decide), if_neg (by decide), if_neg (by decide), if_pos trivial]

/-- Engine dispatch into the `urgency_selection` slot handler. -/
theorem gna_at_urgency_selection (env : Env) (d : IntentData) (st : ConvState)
    (h : st.waiting_for = some (txt "urgency_selection")) :
    get_next_action env d (some st) = handle_urgency_selection d st := by
  simp only [get_next_action, h]
  rw [if_neg (by decide), if_neg (by decide), if_neg (by decide), if_neg (by decide),
      if_pos trivial]

/-- Engine dispatch into the `software_name` slot handler (with its
`IndexError` guard). -/
theorem gna_at_software_name (env : Env) (d : IntentData) (st : ConvState)
    (h : st.waiting_for = some (txt "software_name")) :
    get_next_action env d (some st) =
      (match handle_software_name_input d st with
       | .ok r => r
       | .error _ => errorResult (contains_chinese (d.text.getD []))) := by
  simp only [get_next_action, h]
  rw [if_neg (by decide), if_neg (by decide), if_neg (by decide), if_neg (by decide),
      if_neg (by decide), if_pos trivial]

/-- Engine dispatch into the `software_confirmation` slot handler. -/
theorem gna_at_software_confirmation (env : Env) (d : IntentData) (st : ConvState)
    (h : st.waiting_for = some (txt "software_confirmation")) :
    get_next_action env d (some st) = handle_software_confirmation_input d st := by
  simp only [get_next_action, h]
  rw [if_neg (by decide), if_neg (by decide), if_neg (by decide), if_neg (by decide),
      if_neg (by decide), if_neg (by decide), if_pos trivial]

/-- Engine dispatch with no pending slot: top-level intent dispatch. -/
theorem gna_at_no_slot (env : Env) (d : IntentData) (st : ConvState)
    (h : st.waiting_for = none) :
    get_next_action env d (some st) =
      intent_dispatch env d (contains_chinese (d.text.getD [])) := by
  simp only [get_next_action, h]
  rw [if_neg (by decide), if_neg (by decide), if_neg (by decide), if_neg (by decide),
      if_neg (by decide), if_neg (by decide), if_neg (by decide)]

/-! ## Claims -/

/-- The C1 scenario turn: `{intent: check_ticket_status, entities: {}}`. -/
def c1Intent : IntentData :=
  { intent := txt "check_ticket_status", entities := some {} }

/-- Claim C1.  The claim (and spec) say a null prior state behaves as
`waiting_for = none` and this turn dispatches to `ask_ticket_number`; in the
code the unguarded `current_state.get("waiting_for")` at
`dialogue_service.py:84` raises `AttributeError` on `None`, the blanket
`except` returns the generic error reply (no `action` key, `next_state =
None`), and the intent is never dispatched — while the very same turn with an
empty-dict state does produce `ask_ticket_number` with exactly the claimed
next state.  The guarded check at line 63 and the engine-internal caller at
line 644 (`get_next_action(intent_data)`) show the null-state dispatch is the
intent and line 84 the slip. -/
theorem C1_null_state_error_not_dispatch :
    get_next_action env0 c1Intent none = errorResult false ∧
    (get_next_action env0 c1Intent (some {})).action = some (txt "ask_ticket_number") ∧
    (get_next_action env0 c1Intent (some {})).next_state =
      some { waiting_for := some (txt "ticket_number"),
             action_type := some (txt "check_ticket") } :=
  ⟨rfl, rfl, rfl⟩

/-- Claim C2.  In the `employee_id` slot, any turn text yields the fixed
"request received" reply, no external workflow-client call, and a cleared
(null) next state.  The row is implemented by the Slack turn orchestrator
(`slack_service.process_and_respond` lines 85–90), which short-circuits
before the engine. -/
theorem C2_employee_id_request_received (env : Env) (uid t : Txt) (st : ConvState)
    (h : st.waiting_for = some (txt "employee_id")) :
    (process_and_respond_core env uid t (some st)).response = requestReceivedMsg ∧
    (process_and_respond_core env uid t (some st)).next_state = none ∧
    (process_and_respond_core env uid t (some st)).calls = [] := by
  have hbase : respond_base env t st =
      { response := requestReceivedMsg, next_state := none } := by
    simp only [respond_base, h]
    rw [if_neg (by decide), if_pos trivial]
  simp only [process_and_respond_core, Option.getD_some, hbase]
  rw [if_neg (by decide)]
  exact ⟨rfl, rfl, rfl⟩

/-- Witness for C2 at a concrete state and turn. -/
theorem C2_witness :
    (process_and_respond_core env0 (txt "U1") (txt "E12345")
        (some { waiting_for := some (txt "employee_id") })).response = requestReceivedMsg ∧
    (process_and_respond_core env0 (txt "U1") (txt "E12345")
        (some { waiting_for := some (txt "employee_id") })).next_state = none :=
  ⟨(C2_employee_id_request_received env0 (txt "U1") (txt "E12345") _ rfl).1,
   (C2_employee_id_request_received env0 (txt "U1") (txt "E12345") _ rfl).2.1⟩

/-- A state awaiting confirmation for a password reset. -/
def c4State : ConvState :=
  { waiting_for := some (txt "confirmation"), action_type := some (txt "password_reset") }

/-- Claim C4 counterexample: the claim's affirmative set contains `y`, but on
the bare reply "y" the engine cancels (the code's token list has no `"y"` and
`"yes" in "y"` is false), instead of moving to the employee-id slot. -/
theorem C4_bare_y_cancels :
    (get_next_action env0 { intent := txt "unknown", text := some (txt "y") }
        (some c4State)).action = some (txt "cancelled") ∧
    (get_next_action env0 { intent := txt "unknown", text := some (txt "y") }
        (some c4State)).next_state = none :=
  ⟨rfl, rfl⟩

/-- Claim C4 as amended: in the confirmation state a turn is affirmative
exactly when one of the nine tokens {yes, yeah, sure, ok, okay, yep, confirm,
是, 确认} occurs as a substring of the lowercased text (the bare "y" is not
affirmative); an affirmative turn with `action_type = password_reset` yields
`next_state = {waiting_for: employee_id, action_type: password_reset}`, and a
non-affirmative turn yields the cancellation reply with a null next state. -/
theorem C4_confirmation_transitions (env : Env) (d : IntentData) (st : ConvState)
    (h : st.waiting_for = some (txt "confirmation")) :
    (isAffirmative (d.text.getD []) = false →
      (get_next_action env d (some st)).action = some (txt "cancelled") ∧
      (get_next_action env d (some st)).response = cancelMsg ∧
      (get_next_action env d (some st)).next_state = none) ∧
    (isAffirmative (d.text.getD []) = true →
      (get_next_action env d (some st)).action ≠ some (txt "cancelled") ∧
      (st.action_type = some (txt "password_reset") →
        (get_next_action env d (some st)).next_state =
          some { waiting_for := some (txt "employee_id"),
                 action_type := some (txt "password_reset") })) := by
  rw [gna_at_confirmation env d st h]
  unfold handle_confirmation_input
  constructor
  · intro hneg
    rw [if_neg (by simp [hneg])]
    exact ⟨rfl, rfl, rfl⟩
  · intro hpos
    rw [if_pos hpos]
    constructor
    · split_ifs <;> (dsimp only; decide)
    · intro hat
      rw [if_pos hat]

/-- Claim C10: in both confirmation handlers a turn counts as affirmative
exactly when one of the nine token strings occurs as a contiguous substring of
the lowercased text — embedded occurrences count ("yesterday" contains "yes",
"smoking" contains "ok") and the bare reply "y" does not. -/
theorem C10_substring_affirmative (env : Env) (d : IntentData) (st st' : ConvState)
    (h : st.waiting_for = some (txt "confirmation"))
    (h' : st'.waiting_for = some (txt "software_confirmation")) :
    ((get_next_action env d (some st)).action = some (txt "cancelled") ↔
      isAffirmative (d.text.getD []) = false) ∧
    ((get_next_action env d (some st')).action = some (txt "ask_software_name") ↔
      isAffirmative (d.text.getD []) = false) ∧
    isAffirmative (txt "yesterday") = true ∧
    isAffirmative (txt "smoking") = true ∧
    isAffirmative (txt "y") = false := by
  refine ⟨?_, ?_, by decide, by decide, by decide⟩
  · rw [gna_at_confirmation env d st h]
    unfold handle_confirmation_input
    cases haff : isAffirmative (d.text.getD []) with
    | false => rw [if_neg (by simp)]; simp
    | true =>
      rw [if_pos rfl]
      split_ifs <;> (dsimp only; decide)
  · rw [gna_at_software_confirmation env d st' h']
    unfold handle_software_confirmation_input
    dsimp only
    cases haff : isAffirmative (d.text.getD []) with
    | false => rw [if_neg (by simp)]; simp
    | true => rw [if_pos rfl]; dsimp only; decide

/-- Witness for C10 at a concrete affirmative-by-substring turn. -/
theorem C10_witness :
    ((get_next_action env0 { intent := txt "unknown", text := some (txt "yesterday") }
        (some c4State)).action = some (txt "cancelled") ↔
      isAffirmative (txt "yesterday") = false) ∧
    isAffirmative (txt "yesterday") = true :=
  ⟨(C10_substring_affirmative env0
      { intent := txt "unknown", text := some (txt "yesterday") } c4State
      { waiting_for := some (txt "software_confirmation") } rfl rfl).1,
   (C10_substring_affirmative env0
      { intent := txt "unknown", text := some (txt "yesterday") } c4State
      { waiting_for := some (txt "software_confirmation") } rfl rfl).2.2.1⟩

theorem lowerTxt_cons (c : Char) (t : Txt) :
    lowerTxt (c :: t) = lowerChar c :: lowerTxt t := rfl

/-- A successful case-insensitive head match really consumed its pattern: the
match lowercases to the pattern and the input splits as match ++ rest. -/
theorem matchLeadCI_eq : ∀ (pat l m r : Txt), matchLeadCI pat l = some (m, r) →
    lowerTxt m = pat ∧ l = m ++ r := by
  intro pat
  induction pat with
  | nil =>
    intro l m r hml
    simp only [matchLeadCI, Option.some.injEq, Prod.mk.injEq] at hml
    obtain ⟨h1, h2⟩ := hml
    subst h1; subst h2
    exact ⟨rfl, rfl⟩
  | cons p ps ih =>
    intro l m r hml
    cases l with
    | nil => simp [matchLeadCI] at hml
    | cons c cs =>
      simp only [matchLeadCI] at hml
      by_cases hc : (lowerChar c == p) = true
      · rw [if_pos hc] at hml
        cases hrec : matchLeadCI ps cs with
        | none => rw [hrec] at hml; exact absurd hml (by simp)
        | some pr =>
          obtain ⟨m0, r0⟩ := pr
          rw [hrec] at hml
          simp only [Option.some.injEq, Prod.mk.injEq] at hml
          obtain ⟨hm, hr⟩ := hml
          obtain ⟨ihm, ihl⟩ := ih cs m0 r0 hrec
          subst hm; subst hr
          refine ⟨?_, by simp [ihl]⟩
          rw [lowerTxt_cons, ihm, eq_of_beq hc]
      · rw [if_neg hc] at hml
        exact absurd hml (by simp)

/-- An `INC\d+` match is never the empty string. -/
theorem matchINCAt_ne_nil {l m : Txt} (h : matchINCAt l = some m) : m ≠ [] := by
  unfold matchINCAt at h
  cases hml : matchLeadCI (txt "inc") l with
  | none => rw [hml] at h; simp at h
  | some pr =>
    obtain ⟨p, rest⟩ := pr
    rw [hml] at h
    dsimp only at h
    have hp := (matchLeadCI_eq _ _ _ _ hml).1
    cases hds : rest.takeWhile Char.isDigit with
    | nil => rw [hds] at h; simp at h
    | cons dc ds =>
      rw [hds] at h
      simp only [Option.some.injEq] at h
      subst h
      cases p with
      | nil => exact absurd hp (by decide)
      | cons a as => simp

/-- `re.search(r'(INC\d+)', ...)` never returns the empty string. -/
theorem searchINC_ne_nil : ∀ (t m : Txt), searchINC t = some m → m ≠ [] := by
  intro t
  induction t with
  | nil => intro m h; simp [searchINC] at h
  | cons c cs ih =>
    intro m h
    simp only [searchINC] at h
    cases hma : matchINCAt (c :: cs) with
    | some m0 =>
      rw [hma] at h
      simp only [Option.some.injEq] at h
      subst h
      exact matchINCAt_ne_nil hma
    | none =>
      rw [hma] at h
      exact ih m h

/-- A ticket lookup always issues exactly the one `GetStatus` call and clears
the state, whatever the ticketing client answers. -/
theorem ticketLookupFull_calls (env : Env) (tn : Txt) :
    (ticketLookupFull env tn).calls = [ExtCall.getStatus tn] ∧
    (ticketLookupFull env tn).next_state = none := by
  unfold ticketLookupFull
  cases env.getTicketStatus tn with
  | error e => exact ⟨rfl, rfl⟩
  | ok res =>
    dsimp only
    cases hres : res.err
    · rw [if_neg (by simp)]; exact ⟨rfl, rfl⟩
    · rw [if_pos rfl]; exact ⟨rfl, rfl⟩

/-- A state awaiting a ticket number for a status check. -/
def c3State : ConvState :=
  { waiting_for := some (txt "ticket_number"), action_type := some (txt "check_ticket") }

/-- Claim C3 counterexample.  The claim says recovery from raw text follows
`\b(?:INC|REQ|TASK|RITM)\d{5,}\b` — so "REQ0012345" should resolve and
"INC123" should re-prompt.  The handler actually searches `INC\d+`
(case-insensitive, no boundary, no 5-digit minimum): the REQ id re-prompts and
"INC123" resolves (the lookup call is issued; with the failing client it ends
in the error reply, not the format re-prompt). -/
theorem C3_examples :
    (get_next_action env0
        { intent := txt "check_ticket", text := some (txt "my ticket is REQ0012345") }
        (some c3State)).action = some (txt "ask_again") ∧
    (get_next_action env0
        { intent := txt "check_ticket", text := some (txt "INC123") }
        (some c3State)).action = some (txt "error") ∧
    (get_next_action env0
        { intent := txt "check_ticket", text := some (txt "INC123") }
        (some c3State)).calls = [ExtCall.getStatus (txt "INC123")] :=
  ⟨rfl, rfl, rfl⟩

/-- Claim C3 as amended: while `waiting_for = ticket_number` with no
`TICKET_NUMBER` entity, a ticket id is recovered from the raw text exactly
when `INC\d+` matches case-insensitively (`re.search(r'(INC\d+)', text,
re.IGNORECASE)` — not the five-digit multi-prefix pattern): no match means the
format re-prompt with the state kept, a match means the status lookup call is
issued; "INC123" matches, "my ticket is REQ0012345" does not. -/
theorem C3_recovery_is_INC_regex (env : Env) (d : IntentData) (st : ConvState) (t : Txt)
    (h : st.waiting_for = some (txt "ticket_number"))
    (hent : d.entities.bind (fun es => es.ticketNumber) = none)
    (htext : d.text = some t) :
    (searchINC t = none →
      (get_next_action env d (some st)).action = some (txt "ask_again") ∧
      (get_next_action env d (some st)).next_state = some st) ∧
    (∀ tn, searchINC t = some tn →
      (get_next_action env d (some st)).calls = [ExtCall.getStatus tn] ∧
      (get_next_action env d (some st)).next_state = none) ∧
    searchINC (txt "INC123") = some (txt "INC123") ∧
    searchINC (txt "my ticket is REQ0012345") = none := by
  rw [gna_at_ticket_number env d st h]
  unfold handle_ticket_number_input
  rw [hent, htext]
  simp only [Option.some_bind]
  refine ⟨?_, ?_, rfl, rfl⟩
  · intro hs
    rw [hs]
    exact ⟨rfl, rfl⟩
  · intro tn hs
    rw [hs]
    dsimp only
    have hne := searchINC_ne_nil t tn hs
    clear hs
    unfold ticketNumberResolved
    cases tn with
    | nil => exact absurd rfl hne
    | cons a as =>
      rw [if_neg (by simp)]
      exact ticketLookupFull_calls env (a :: as)

/-- Witness for C3 at concrete turns: one with an `INC`-style id in the text,
one without. -/
theorem C3_witness :
    (get_next_action env0 { intent := txt "check_ticket", text := some (txt "hello INC99 bye") }
        (some c3State)).calls = [ExtCall.getStatus (txt "INC99")] ∧
    (get_next_action env0 { intent := txt "check_ticket", text := some (txt "nothing here") }
        (some c3State)).next_state = some c3State :=
  ⟨((C3_recovery_is_INC_regex env0
      { intent := txt "check_ticket", text := some (txt "hello INC99 bye") }
      c3State (txt "hello INC99 bye") rfl rfl rfl).2.1 (txt "INC99") rfl).1,
   ((C3_recovery_is_INC_regex env0
      { intent := txt "check_ticket", text := some (txt "nothing here") }
      c3State (txt "nothing here") rfl rfl rfl).1 rfl).2⟩

/-- Claim C7 counterexample: a Chinese turn in the confirmation state gets the
fixed English cancellation template, not a Chinese one. -/
theorem C7_chinese_turn_english_reply :
    contains_chinese (txt "不") = true ∧
    (get_next_action env0 { intent := txt "unknown", text := some (txt "不") }
        (some c4State)).response = cancelMsg ∧
    contains_chinese cancelMsg = false :=
  ⟨rfl, rfl, rfl⟩

/-- Claim C7 as amended: the per-turn Chinese/English selection governs the
top-level intent branches (greeting shown, unknown/clarify shown) and the
error fallbacks (null-state shown), but the `waiting_for` slot handlers reply
with fixed English templates regardless of the turn's text (confirmation
cancellation and the ticket-number re-prompt shown). -/
theorem C7_language_per_turn_scope (env : Env) (d : IntentData) (st : ConvState) :
    (st.waiting_for = none → d.intent = txt "greeting" →
      (get_next_action env d (some st)).response =
        (if contains_chinese (d.text.getD []) then txt "您好！我是IT支持助手。今天有什么可以帮您的吗？"
         else txt "Hello! I\x27m your IT support assistant. How can I help you today?")) ∧
    (st.waiting_for = none → d.intent = txt "unknown" →
      (get_next_action env d (some st)).response =
        (if contains_chinese (d.text.getD [])
         then txt "抱歉，我不太理解您的意思。我可以帮助查询工单状态、重置密码、查找知识库文章、创建支持工单或请求软件。您能重新描述您的请求吗？"
         else txt "I\x27m not sure I understand. I can help with checking ticket status, resetting passwords, finding knowledge base articles, creating support tickets, or requesting software. Could you please rephrase your request?")) ∧
    ((get_next_action env d none).response =
      (if contains_chinese (d.text.getD []) then zhErrMsg else enErrMsg)) ∧
    (st.waiting_for = some (txt "confirmation") → isAffirmative (d.text.getD []) = false →
      (get_next_action env d (some st)).response = cancelMsg) ∧
    (st.waiting_for = some (txt "ticket_number") →
      d.entities.bind (fun es => es.ticketNumber) = none →
      d.text.bind searchINC = none →
      (get_next_action env d (some st)).response = (ask_again_ticket_result st).response) := by
  refine ⟨?_, ?_, ?_, ?_, ?_⟩
  · intro h hi
    rw [gna_at_no_slot env d st h]
    unfold intent_dispatch
    dsimp only
    rw [hi]
    rw [if_neg (by decide), if_neg (by decide), if_neg (by decide), if_neg (by decide),
        if_pos rfl]
  · intro h hi
    rw [gna_at_no_slot env d st h]
    unfold intent_dispatch
    dsimp only
    rw [hi]
    rw [if_neg (by decide), if_neg (by decide), if_neg (by decide), if_neg (by decide),
        if_neg (by decide), if_neg (by decide), if_neg (by decide)]
  · rw [gna_none_state env d]
    rfl
  · intro h hneg
    rw [gna_at_confirmation env d st h]
    unfold handle_confirmation_input
    rw [if_neg (by simp [hneg])]
  · intro h hent hs
    rw [gna_at_ticket_number env d st h]
    unfold handle_ticket_number_input
    rw [hent, hs]

/-- Witness for C7 at concrete turns: a Chinese greeting picks the Chinese
template, while a Chinese non-affirmative confirmation turn still gets the
English cancellation reply. -/
theorem C7_witness :
    (get_next_action env0 { intent := txt "greeting", text := some (txt "你好") }
        (some {})).response =
      (if contains_chinese (txt "你好") then txt "您好！我是IT支持助手。今天有什么可以帮您的吗？"
       else txt "Hello! I\x27m your IT support assistant. How can I help you today?") ∧
    (get_next_action env0 { intent := txt "unknown", text := some (txt "不要") }
        (some c4State)).response = cancelMsg :=
  ⟨(C7_language_per_turn_scope env0
      { intent := txt "greeting", text := some (txt "你好") } {}).1 rfl rfl,
   (C7_language_per_turn_scope env0
      { intent := txt "unknown", text := some (txt "不要") } c4State).2.2.2.1 rfl (by decide)⟩

theorem tokStarts_weaken : ∀ (t l b : Txt), tokStarts t l = true → tokStarts t (l ++ b) = true := by
  intro t
  induction t with
  | nil => intro l b _; rfl
  | cons a as ih =>
    intro l b hl
    cases l with
    | nil => simp [tokStarts] at hl
    | cons c cs =>
      simp only [tokStarts, Bool.and_eq_true] at hl ⊢
      exact ⟨hl.1, ih cs b hl.2⟩

theorem containsTok_append_right (t a b : Txt) (ha : containsTok t a = true) :
    containsTok t (a ++ b) = true := by
  induction a with
  | nil =>
    cases t with
    | nil => exact containsTok_nil_tok b
    | cons x xs => simp [containsTok, tokStarts] at ha
  | cons c cs ih =>
    simp only [containsTok, Bool.or_eq_true] at ha ⊢
    cases ha with
    | inl hs => exact Or.inl (tokStarts_weaken _ _ _ hs)
    | inr hc => exact Or.inr (ih hc)

/-- The engine does not itself reach the software client while it is waiting
for a ticket-number: `process_message` when the state is not the
ticket-number slot goes through the NLU oracle and the engine. -/
theorem process_message_not_ticket (env : Env) (msg : Txt) (st : ConvState)
    (h : st.waiting_for ≠ some (txt "ticket_number")) :
    process_message env msg (some st) =
      get_next_action env { env.understand msg with text := some msg } (some st) := by
  have hvt : (decide (st.waiting_for = some (txt "ticket_number")) &&
      containsTok (txt "INC") msg) = false := by
    cases hd : decide (st.waiting_for = some (txt "ticket_number")) with
    | false => simp
    | true => exact absurd (of_decide_eq_true hd) h
  unfold process_message
  dsimp only
  rw [hvt, if_neg (by simp)]

/-- A state awaiting software-request confirmation for "Slack". -/
def c5State : ConvState :=
  { waiting_for := some (txt "software_confirmation"),
    action_type := some (txt "request_software"),
    software_name := some (txt "Slack") }

/-- Claim C5 counterexample: the affirmative turn "ok reset password"
(affirmative via "ok") in the software_confirmation state is hijacked by the
orchestrator's password&reset keyword override — the software client is never
called and the next state is the password confirmation slot, not null. -/
theorem C5_password_override_skips_submit :
    isAffirmative (txt "ok reset password") = true ∧
    (process_and_respond_core envSubmitOk (txt "U1") (txt "ok reset password")
        (some c5State)).calls = [] ∧
    (process_and_respond_core envSubmitOk (txt "U1") (txt "ok reset password")
        (some c5State)).next_state ≠ none := by
  refine ⟨by decide, rfl, by decide⟩

/-- Claim C5 as amended: on an affirmative turn in the software_confirmation
state whose text does not trip the orchestrator's password&reset override,
the software client `Submit` is called once (by the transport, on the
engine's `execute_software_request` instruction), the next state is null, and
when the client reports success with a ticket id that id appears in the
rendered reply. -/
theorem C5_submit_on_affirmative (env : Env) (uid t : Txt) (st : ConvState)
    (h : st.waiting_for = some (txt "software_confirmation"))
    (haff : isAffirmative t = true)
    (hpw : (containsTok (txt "password") (lowerTxt t) &&
            containsTok (txt "reset") (lowerTxt t)) = false) :
    (process_and_respond_core env uid t (some st)).calls =
      [ExtCall.submit uid (st.software_name.getD (txt "the requested software"))] ∧
    (process_and_respond_core env uid t (some st)).next_state = none ∧
    (∀ tn,
      (env.submit uid (st.software_name.getD (txt "the requested software"))).status = txt "success" →
      (env.submit uid (st.software_name.getD (txt "the requested software"))).ticket_number = some tn →
      containsTok tn (process_and_respond_core env uid t (some st)).response = true) := by
  have hbase : respond_base env t st =
      handle_software_confirmation_input { env.understand t with text := some t } st := by
    unfold respond_base
    rw [if_neg (by rw [h]; decide), if_neg (by rw [h]; decide), if_neg (by simp [hpw])]
    rw [process_message_not_ticket env t st (by rw [h]; decide)]
    exact gna_at_software_confirmation env _ st h
  have hhand : handle_software_confirmation_input
      { env.understand t with text := some t } st =
      { action := some (txt "execute_software_request"),
        details_software_name := some (st.software_name.getD (txt "the requested software")),
        response := txt "Great! I\x27ve submitted a request for " ++
          (st.software_name.getD (txt "the requested software")) ++
          txt ". The IT team will review your request and contact you shortly. Your request has been tracked.",
        next_state := none } := by
    unfold handle_software_confirmation_input
    dsimp only
    simp only [Option.getD_some]
    rw [if_pos haff]
  unfold process_and_respond_core
  simp only [Option.getD_some, hbase, hhand]
  rw [if_pos trivial]
  dsimp only
  refine ⟨rfl, rfl, ?_⟩
  intro tn hstat htn
  rw [if_pos hstat, htn]
  simp only [Option.getD_some]
  cases hsim : (env.submit uid (st.software_name.getD (txt "the requested software"))).simulated
  · rw [if_neg (by simp)]
    exact containsTok_sandwich tn _ _
  · rw [if_pos rfl]
    exact containsTok_append_right tn _ _ (containsTok_sandwich tn _ _)

/-- Witness for C5 at a concrete affirmative turn with a succeeding client. -/
theorem C5_witness :
    (process_and_respond_core envSubmitOk (txt "U1") (txt "yes")
        (some c5State)).calls = [ExtCall.submit (txt "U1") (txt "Slack")] ∧
    containsTok (txt "REQ0099999")
      (process_and_respond_core envSubmitOk (txt "U1") (txt "yes")
        (some c5State)).response = true :=
  ⟨(C5_submit_on_affirmative envSubmitOk (txt "U1") (txt "yes") c5State rfl
      (by decide) (by decide)).1,
   (C5_submit_on_affirmative envSubmitOk (txt "U1") (txt "yes") c5State rfl
      (by decide) (by decide)).2.2 (txt "REQ0099999") rfl rfl⟩

/-- Claim C9: each of the three input-validation failures re-prompts
(`ask_again`) and returns the input state itself, unchanged, as
`next_state` — every accumulated slot is preserved. -/
theorem C9_validation_keeps_state (env : Env) (d : IntentData) (st : ConvState) :
    (st.waiting_for = some (txt "ticket_number") →
      d.entities.bind (fun es => es.ticketNumber) = none →
      d.text.bind searchINC = none →
      (get_next_action env d (some st)).action = some (txt "ask_again") ∧
      (get_next_action env d (some st)).next_state = some st) ∧
    (st.waiting_for = some (txt "ticket_details") → (d.text.getD []).length < 5 →
      (get_next_action env d (some st)).action = some (txt "ask_again") ∧
      (get_next_action env d (some st)).next_state = some st) ∧
    (st.waiting_for = some (txt "software_name") →
      (stripTxt (d.text.getD [])).length < 2 →
      (get_next_action env d (some st)).action = some (txt "ask_again") ∧
      (get_next_action env d (some st)).next_state = some st) := by
  refine ⟨?_, ?_, ?_⟩
  · intro h hent hs
    rw [gna_at_ticket_number env d st h]
    unfold handle_ticket_number_input
    rw [hent, hs]
    exact ⟨rfl, rfl⟩
  · intro h hlen
    rw [gna_at_ticket_details env d st h]
    unfold handle_ticket_details_input
    dsimp only
    rw [if_pos hlen]
    exact ⟨rfl, rfl⟩
  · intro h hlen
    rw [gna_at_software_name env d st h]
    unfold handle_software_name_input
    dsimp only
    rw [if_pos hlen]
    exact ⟨rfl, rfl⟩

/-- A ticket-details state with accumulated slots, for the C9 witness. -/
def c9DetailsState : ConvState :=
  { waiting_for := some (txt "ticket_details"), action_type := some (txt "create_ticket"),
    short_description := some (txt "Network issue"), urgency := some (txt "1") }

/-- Witness for C9 at concrete failing turns in all three slots. -/
theorem C9_witness :
    (get_next_action env0 { intent := txt "check_ticket", text := some (txt "no id at all") }
        (some c3State)).next_state = some c3State ∧
    (get_next_action env0 { intent := txt "unknown", text := some (txt "hip") }
        (some c9DetailsState)).next_state = some c9DetailsState ∧
    (get_next_action env0 { intent := txt "request_software", text := some (txt " a ") }
        (some { waiting_for := some (txt "software_name") })).next_state =
      some { waiting_for := some (txt "software_name") } :=
  ⟨((C9_validation_keeps_state env0
      { intent := txt "check_ticket", text := some (txt "no id at all") } c3State).1
      rfl rfl rfl).2,
   ((C9_validation_keeps_state env0
      { intent := txt "unknown", text := some (txt "hip") } c9DetailsState).2.1
      rfl (by decide)).2,
   ((C9_validation_keeps_state env0
      { intent := txt "request_software", text := some (txt " a ") }
      { waiting_for := some (txt "software_name") }).2.2
      rfl (by decide)).2⟩

/-- The shape of every extracted ticket id: a prefix that lowercases to one of
inc/req/task/ritm, followed by at least five digits. -/
def TicketIdShape (s : Txt) : Prop :=
  ∃ p d, s = p ++ d ∧
    lowerTxt p ∈ [txt "inc", txt "req", txt "task", txt "ritm"] ∧
    5 ≤ d.length ∧ ∀ c ∈ d, c.isDigit = true

/-- A successful single-alternative match decomposes as its pattern prefix
plus a run of at least five digits. -/
theorem matchTicketAlt_sound {pat l m r : Txt} (h : matchTicketAlt pat l = some (m, r)) :
    ∃ p d, m = p ++ d ∧ lowerTxt p = pat ∧ 5 ≤ d.length ∧ ∀ c ∈ d, c.isDigit = true := by
  unfold matchTicketAlt at h
  cases hml : matchLeadCI pat l with
  | none => rw [hml] at h; simp at h
  | some pr =>
    obtain ⟨m0, rest⟩ := pr
    rw [hml] at h
    dsimp only at h
    by_cases hcond : (decide (5 ≤ (rest.takeWhile Char.isDigit).length) &&
        (match rest.dropWhile Char.isDigit with
         | [] => true
         | c :: _ => !isWordChar c)) = true
    · rw [if_pos hcond] at h
      simp only [Option.some.injEq, Prod.mk.injEq] at h
      obtain ⟨hm, hr⟩ := h
      subst hm
      refine ⟨m0, rest.takeWhile Char.isDigit, rfl, (matchLeadCI_eq _ _ _ _ hml).1, ?_, ?_⟩
      · exact of_decide_eq_true ((Bool.and_eq_true _ _).mp hcond).1
      · intro c hc
        exact List.mem_takeWhile_imp hc
    · rw [if_neg hcond] at h
      simp at h

theorem shape_of_alt {pat l m r : Txt}
    (hmem : pat ∈ [txt "inc", txt "req", txt "task", txt "ritm"])
    (h : matchTicketAlt pat l = some (m, r)) : TicketIdShape m := by
  obtain ⟨p, d, hm, hp, h5, hd⟩ := matchTicketAlt_sound h
  exact ⟨p, d, hm, by rw [hp]; exact hmem, h5, hd⟩

/-- Every match of the full alternation is a well-shaped ticket id. -/
theorem matchTicketAt_sound {l m r : Txt} (h : matchTicketAt l = some (m, r)) :
    TicketIdShape m := by
  unfold matchTicketAt at h
  cases h1 : matchTicketAlt (txt "inc") l with
  | some pr =>
    rw [h1] at h; dsimp only at h
    obtain ⟨m1, r1⟩ := pr
    simp only [Option.some.injEq, Prod.mk.injEq] at h
    obtain ⟨hm, hr⟩ := h
    subst hm
    exact shape_of_alt (by decide) h1
  | none =>
    rw [h1] at h; dsimp only at h
    cases h2 : matchTicketAlt (txt "req") l with
    | some pr =>
      rw [h2] at h; dsimp only at h
      obtain ⟨m2, r2⟩ := pr
      simp only [Option.some.injEq, Prod.mk.injEq] at h
      obtain ⟨hm, hr⟩ := h
      subst hm
      exact shape_of_alt (by decide) h2
    | none =>
      rw [h2] at h; dsimp only at h
      cases h3 : matchTicketAlt (txt "task") l with
      | some pr =>
        rw [h3] at h; dsimp only at h
        obtain ⟨m3, r3⟩ := pr
        simp only [Option.some.injEq, Prod.mk.injEq] at h
        obtain ⟨hm, hr⟩ := h
        subst hm
        exact shape_of_alt (by decide) h3
      | none =>
        rw [h3] at h; dsimp only at h
        exact shape_of_alt (by decide) h

/-- Every id the `finditer` scan emits is well-shaped. -/
theorem scanTicketsAux_sound : ∀ (fuel : Nat) (prev : Option Char) (l s : Txt),
    s ∈ scanTicketsAux fuel prev l → TicketIdShape s := by
  intro fuel
  induction fuel with
  | zero => intro prev l s hs; simp [scanTicketsAux] at hs
  | succ n ih =>
    intro prev l s hs
    cases l with
    | nil => simp [scanTicketsAux] at hs
    | cons c rest =>
      simp only [scanTicketsAux] at hs
      by_cases hb : boundaryBefore prev = true
      · rw [if_pos hb] at hs
        cases hm : matchTicketAt (c :: rest) with
        | some pr =>
          obtain ⟨m, r⟩ := pr
          rw [hm] at hs
          dsimp only at hs
          rcases List.mem_cons.mp hs with hEq | hTail
          · subst hEq; exact matchTicketAt_sound hm
          · exact ih _ _ _ hTail
        | none =>
          rw [hm] at hs
          dsimp only at hs
          exact ih _ _ _ hs
      · rw [if_neg hb] at hs
        exact ih _ _ _ hs

/-- Claim C6: `ExtractTicketIds` returns the regex matches in first-seen
order — on "check INC0010001 and req99999" both ids, case preserved (a REQ id
with exactly five digits does match); "INC1234" (four digits) yields nothing;
and every string it ever returns decomposes as an INC/REQ/TASK/RITM prefix
(case-insensitively) plus at least five digits. -/
theorem C6_extract_ticket_ids (t s : Txt) :
    extract_ticket_ids (txt "check INC0010001 and req99999") =
      [txt "INC0010001", txt "req99999"] ∧
    extract_ticket_ids (txt "check INC1234") = [] ∧
    (s ∈ extract_ticket_ids t → TicketIdShape s) := by
  exact ⟨rfl, rfl, fun hs => scanTicketsAux_sound _ _ _ _ hs⟩

/-- Witness for C6: the five-digit lowercase REQ id is extracted and is
well-shaped. -/
theorem C6_witness :
    extract_ticket_ids (txt "check INC0010001 and req99999") =
      [txt "INC0010001", txt "req99999"] ∧
    TicketIdShape (txt "req99999") :=
  ⟨(C6_extract_ticket_ids [] []).1,
   (C6_extract_ticket_ids (txt "check INC0010001 and req99999") (txt "req99999")).2.2
     (by decide)⟩

theorem errorResult_wf (b : Bool) :
    (errorResult b).next_state = none ∧
    ((errorResult b).response = enErrMsg ∨ (errorResult b).response = zhErrMsg) := by
  cases b
  · exact ⟨rfl, Or.inl rfl⟩
  · exact ⟨rfl, Or.inr rfl⟩

theorem ticketLookupFull_action (env : Env) (tn : Txt) :
    (ticketLookupFull env tn).action ≠ none := by
  unfold ticketLookupFull
  cases env.getTicketStatus tn with
  | error e => simp
  | ok res =>
    dsimp only
    cases hres : res.err
    · rw [if_neg (by simp)]; simp
    · rw [if_pos rfl]; simp

theorem ticketNumberResolved_action (env : Env) (tn : Txt) (st : ConvState) :
    (ticketNumberResolved env tn st).action ≠ none := by
  unfold ticketNumberResolved
  by_cases he : tn.isEmpty = true
  · rw [if_pos he]; simp [ask_again_ticket_result]
  · rw [if_neg he]; exact ticketLookupFull_action env tn

theorem handle_ticket_number_input_action (env : Env) (d : IntentData) (st : ConvState)
    (r : ActionResult) (h : handle_ticket_number_input env d st = Except.ok r) :
    r.action ≠ none := by
  unfold handle_ticket_number_input at h
  cases hent : d.entities.bind (fun es => es.ticketNumber) with
  | some l =>
    rw [hent] at h
    cases l with
    | nil => dsimp only at h; exact absurd h (by simp)
    | cons tn rest =>
      dsimp only at h
      simp only [Except.ok.injEq] at h
      subst h
      exact ticketNumberResolved_action env tn st
  | none =>
    rw [hent] at h
    dsimp only at h
    cases hs : d.text.bind searchINC with
    | some tn =>
      rw [hs] at h
      dsimp only at h
      simp only [Except.ok.injEq] at h
      subst h
      exact ticketNumberResolved_action env tn st
    | none =>
      rw [hs] at h
      dsimp only at h
      simp only [Except.ok.injEq] at h
      subst h
      simp [ask_again_ticket_result]

theorem handle_ticket_details_input_action (env : Env) (d : IntentData) (st : ConvState) :
    (handle_ticket_details_input env d st).action ≠ none := by
  unfold handle_ticket_details_input
  dsimp only
  by_cases hl : (d.text.getD []).length < 5
  · rw [if_pos hl]; simp
  · rw [if_neg hl]
    cases env.createTicket (st.short_description.getD (txt "IT Support Request"))
        (d.text.getD []) (st.urgency.getD (txt "3")) with
    | error e => simp
    | ok res =>
      dsimp only
      cases hres : res.err
      · rw [if_neg (by simp)]; simp
      · rw [if_pos rfl]; simp

theorem handle_confirmation_input_action (d : IntentData) (st : ConvState) :
    (handle_confirmation_input d st).action ≠ none := by
  unfold handle_confirmation_input
  split_ifs <;> simp

theorem handle_urgency_selection_action (d : IntentData) (st : ConvState) :
    (handle_urgency_selection d st).action ≠ none := by
  simp [handle_urgency_selection]

theorem handle_software_name_input_action (d : IntentData) (st : ConvState)
    (r : ActionResult) (h : handle_software_name_input d st = Except.ok r) :
    r.action ≠ none := by
  unfold handle_software_name_input at h
  dsimp only at h
  by_cases hl : (stripTxt (d.text.getD [])).length < 2
  · rw [if_pos hl] at h
    simp only [Except.ok.injEq] at h
    subst h; simp
  · rw [if_neg hl] at h
    cases hent : d.entities.bind (fun es => es.softwareName) with
    | some l =>
      rw [hent] at h
      cases l with
      | nil => dsimp only at h; exact absurd h (by simp)
      | cons s rest =>
        dsimp only at h
        simp only [Except.ok.injEq] at h
        subst h; simp [confirm_software_result]
    | none =>
      rw [hent] at h
      dsimp only at h
      simp only [Except.ok.injEq] at h
      subst h; simp [confirm_software_result]

theorem handle_software_confirmation_input_action (d : IntentData) (st : ConvState) :
    (handle_software_confirmation_input d st).action ≠ none := by
  unfold handle_software_confirmation_input
  dsimp only
  split_ifs <;> simp

theorem handle_check_ticket_status_action (env : Env) (es : Entities) :
    (handle_check_ticket_status env es).action ≠ none := by
  unfold handle_check_ticket_status
  cases es.ticketNumber with
  | none => dsimp only; simp
  | some l =>
    cases l with
    | nil => dsimp only; simp
    | cons tn rest =>
      dsimp only
      cases env.getTicketStatus tn with
      | error e => simp
      | ok res =>
        dsimp only
        cases hres : res.err
        · rw [if_neg (by simp)]; simp
        · rw [if_pos rfl]; simp

theorem handle_create_ticket_action (d : IntentData) (es : Entities) :
    (handle_create_ticket d es).action ≠ none := by
  unfold handle_create_ticket
  dsimp only
  simp

theorem handle_request_software_action (es : Entities) :
    (handle_request_software es).action ≠ none := by
  unfold handle_request_software
  cases es.softwareName with
  | none => dsimp only; simp
  | some l =>
    cases l with
    | nil => dsimp only; simp
    | cons s rest => dsimp only; simp

theorem intent_dispatch_action (env : Env) (d : IntentData) (uc : Bool) :
    (intent_dispatch env d uc).action ≠ none := by
  unfold intent_dispatch
  dsimp only
  split_ifs
  · exact handle_check_ticket_status_action env _
  · simp [handle_reset_password]
  · exact handle_create_ticket_action d _
  · exact handle_request_software_action _
  all_goals simp

/-- Engine dispatch when the pending slot matches none of the seven handled
values (including an absent `waiting_for`, and unhandled values such as
`employee_id`): top-level intent dispatch. -/
theorem gna_fallthrough (env : Env) (d : IntentData) (st : ConvState)
    (h1 : st.waiting_for ≠ some (txt "kb_query"))
    (h2 : st.waiting_for ≠ some (txt "ticket_number"))
    (h3 : st.waiting_for ≠ some (txt "ticket_details"))
    (h4 : st.waiting_for ≠ some (txt "confirmation"))
    (h5 : st.waiting_for ≠ some (txt "urgency_selection"))
    (h6 : st.waiting_for ≠ some (txt "software_name"))
    (h7 : st.waiting_for ≠ some (txt "software_confirmation")) :
    get_next_action env d (some st) =
      intent_dispatch env d (contains_chinese (d.text.getD [])) := by
  simp only [get_next_action]
  rw [if_neg h1, if_neg h2, if_neg h3, if_neg h4, if_neg h5, if_neg h6, if_neg h7]

/-- Claim C8 counterexample: the result for a greeting turn with a null prior
state carries no `action` tag at all (the claim says every result contains
it). -/
theorem C8_missing_action_tag :
    (get_next_action env0 { intent := txt "greeting", text := some (txt "hello") }
        none).action = none := rfl

/-- Claim C8 as amended: `NextAction` is total — it never raises to its
caller, and every result carries the response text and the `next_state`
field — but the `action` tag is absent exactly in the error-fallback branches
(the blanket exception handler and the kb-query failure); whenever the tag is
missing the result is one of those four localized fallback replies with a
null next state. -/
theorem C8_returns_wellformed (env : Env) (d : IntentData) (cs : Option ConvState) :
    (get_next_action env d cs).action = none →
    (get_next_action env d cs).next_state = none ∧
    ((get_next_action env d cs).response = enErrMsg ∨
     (get_next_action env d cs).response = zhErrMsg ∨
     (get_next_action env d cs).response = enKbErrMsg ∨
     (get_next_action env d cs).response = zhKbErrMsg) := by
  cases cs with
  | none =>
    rw [gna_none_state env d]
    intro _
    obtain ⟨ha, hb⟩ := errorResult_wf (contains_chinese (d.text.getD []))
    exact ⟨ha, hb.elim Or.inl (fun h => Or.inr (Or.inl h))⟩
  | some st =>
    by_cases h1 : st.waiting_for = some (txt "kb_query")
    · rw [gna_at_kb_query env d st h1]
      cases env.kbAnswer (d.text.getD []) with
      | ok a =>
        dsimp only
        intro hco
        exact absurd hco (by simp)
      | error e =>
        dsimp only
        intro _
        refine ⟨rfl, ?_⟩
        cases hc : contains_chinese (d.text.getD [])
        · rw [if_neg (by simp)]
          exact Or.inr (Or.inr (Or.inl rfl))
        · rw [if_pos rfl]
          exact Or.inr (Or.inr (Or.inr rfl))
    · by_cases h2 : st.waiting_for = some (txt "ticket_number")
      · rw [gna_at_ticket_number env d st h2]
        cases hh : handle_ticket_number_input env d st with
        | ok r =>
          dsimp only
          intro hco
          exact absurd hco (handle_ticket_number_input_action env d st r hh)
        | error e =>
          dsimp only
          intro _
          obtain ⟨ha, hb⟩ := errorResult_wf (contains_chinese (d.text.getD []))
          exact ⟨ha, hb.elim Or.inl (fun h => Or.inr (Or.inl h))⟩
      · by_cases h3 : st.waiting_for = some (txt "ticket_details")
        · rw [gna_at_ticket_details env d st h3]
          intro hco
          exact absurd hco (handle_ticket_details_input_action env d st)
        · by_cases h4 : st.waiting_for = some (txt "confirmation")
          · rw [gna_at_confirmation env d st h4]
            intro hco
            exact absurd hco (handle_confirmation_input_action d st)
          · by_cases h5 : st.waiting_for = some (txt "urgency_selection")
            · rw [gna_at_urgency_selection env d st h5]
              intro hco
              exact absurd hco (handle_urgency_selection_action d st)
            · by_cases h6 : st.waiting_for = some (txt "software_name")
              · rw [gna_at_software_name env d st h6]
                cases hh : handle_software_name_input d st with
                | ok r =>
                  dsimp only
                  intro hco
                  exact absurd hco (handle_software_name_input_action d st r hh)
                | error e =>
                  dsimp only
                  intro _
                  obtain ⟨ha, hb⟩ := errorResult_wf (contains_chinese (d.text.getD []))
                  exact ⟨ha, hb.elim Or.inl (fun h => Or.inr (Or.inl h))⟩
              · by_cases h7 : st.waiting_for = some (txt "software_confirmation")
                · rw [gna_at_software_confirmation env d st h7]
                  intro hco
                  exact absurd hco (handle_software_confirmation_input_action d st)
                · rw [gna_fallthrough env d st h1 h2 h3 h4 h5 h6 h7]
                  intro hco
                  exact absurd hco (intent_dispatch_action env d _)

/-- Witness for C8 at the null-state fallback. -/
theorem C8_witness :
    (get_next_action env0 { intent := txt "greeting", text := some (txt "hi") }
        none).next_state = none ∧
    ((get_next_action env0 { intent := txt "greeting", text := some (txt "hi") }
        none).response = enErrMsg ∨
     (get_next_action env0 { intent := txt "greeting", text := some (txt "hi") }
        none).response = zhErrMsg ∨
     (get_next_action env0 { intent := txt "greeting", text := some (txt "hi") }
        none).response = enKbErrMsg ∨
     (get_next_action env0 { intent := txt "greeting", text := some (txt "hi") }
        none).response = zhKbErrMsg) :=
  C8_returns_wellformed env0 { intent := txt "greeting", text := some (txt "hi") } none rfl

/-- Witness for C4 at concrete non-affirmative and affirmative turns. -/
theorem C4_witness :
    (get_next_action env0 { intent := txt "unknown", text := some (txt "no thanks") }
        (some c4State)).next_state = none ∧
    (get_next_action env0 { intent := txt "unknown", text := some (txt "yes please") }
        (some c4State)).next_state =
      some { waiting_for := some (txt "employee_id"),
             action_type := some (txt "password_reset") } :=
  ⟨((C4_confirmation_transitions env0
      { intent := txt "unknown", text := some (txt "no thanks") } c4State rfl).1
      (by decide)).2.2,
   ((C4_confirmation_transitions env0
      { intent := txt "unknown", text := some (txt "yes please") } c4State rfl).2
      (by decide)).2 rfl⟩
